import Mathlib

/-!
Verification of the memory-upload dialog (`UploadMemoryDialog.js`) and the
mail wrapper (`config/mailer.js`) of the `legacy_trunk` repository.

The JavaScript is shallowly embedded: the React component's local state
(`formData`, `file`, the two busy flags) becomes an explicit `DialogState`;
each handler becomes a pure function from the state (plus, for the two
asynchronous handlers, the outcome of their single network call) to the
resulting state together with its observable effects (whether a network call
was issued, which alert was shown, what the success callback received).
-/

namespace LegacyTrunk

/-- A value stored in a multipart `FormData` body: either a text field or an
attached file (files are identified by name; their bytes play no role here). -/
inductive FormValue where
  | str (s : String)
  | file (name : String)
deriving DecidableEq, Repr

/-- The component's `formData` state object:
`{ text, description, upload_date, tags }`. -/
structure FormState where
  text : String
  description : String
  upload_date : String
  tags : List String
deriving DecidableEq, Repr

/-- The full local state of the dialog: `formData`, the selected `file`
(`useState(null)`), and the two busy flags. -/
structure DialogState where
  formData : FormState
  file : Option String
  isUploading : Bool
  isGeneratingTags : Bool
deriving DecidableEq, Repr

/-- The default `formData` shape, as built in `useState` and in `handleClose`:
empty title and description, today's date, no tags. -/
def initialFormData (today : String) : FormState :=
  { text := "", description := "", upload_date := today, tags := [] }

/-- JavaScript `String.prototype.trim` modelled over the character list:
strips leading and trailing whitespace characters. -/
def jsIsWhitespace (c : Char) : Bool :=
  c = ' ' || c = '\t' || c = '\n' || c = '\r'

/-- JavaScript `s.trim()`: drop whitespace from both ends of the string. -/
def jsTrim (s : String) : String :=
  ⟨((s.data.dropWhile jsIsWhitespace).reverse.dropWhile jsIsWhitespace).reverse⟩

/-- The tag-list update of `handleTagToggle`: remove the tag if present
(`prev.tags.filter((t) => t !== tag)`), append it otherwise
(`[...prev.tags, tag]`). -/
def toggleList (tag : String) (tags : List String) : List String :=
  if tags.contains tag then tags.filter (fun t => t ≠ tag)
  else tags ++ [tag]

/-- `handleTagToggle(tag)`: toggles a manual tag in the draft's tag list. -/
def handleTagToggle (tag : String) (s : DialogState) : DialogState :=
  { s with formData := { s.formData with tags := toggleList tag s.formData.tags } }

/-- JavaScript `[...new Set(l)]` restricted to strings, written with an
accumulator of the elements already emitted: keeps the first occurrence of
each element, in order. -/
def jsSetDedupAux (seen : List String) : List String → List String
  | [] => []
  | x :: xs =>
      if seen.contains x then jsSetDedupAux seen xs
      else x :: jsSetDedupAux (seen ++ [x]) xs

/-- JavaScript `[...new Set(l)]`: deduplicate a list, keeping first
occurrences in order. -/
def jsSetDedup (l : List String) : List String := jsSetDedupAux [] l

/-- The AI-tag merge of `handleGenerateTags`:
`[...new Set([...prev.tags, ...aiTags])]`. -/
def mergeTags (prev aiTags : List String) : List String :=
  jsSetDedup (prev ++ aiTags)

/-- Outcome of the single `fetch` to the tagging service inside
`handleGenerateTags`: HTTP success with the extracted `item.tag` values,
HTTP failure (`res.ok` false), or a thrown network/parse exception. -/
inductive FetchTagsOutcome where
  | httpOk (aiTags : List String)
  | httpError
  | networkError
deriving DecidableEq, Repr

/-- The observable result of one `handleGenerateTags` invocation: the state
it leaves behind, whether the network call was issued, and the alert shown. -/
structure GenTagsRun where
  state : DialogState
  networkCallMade : Bool
  alert : Option String
deriving DecidableEq, Repr

/-- `handleGenerateTags()`: aborts with a validation alert when both the
trimmed title and the trimmed description are empty (the fetch is never
issued and no state changes); otherwise issues the fetch and, per outcome,
merges the suggested tags (HTTP success) or alerts a generic failure, the
busy flag being cleared in the `finally` block in every fetched case. -/
def handleGenerateTags (s : DialogState) (outcome : FetchTagsOutcome) : GenTagsRun :=
  if jsTrim s.formData.text = "" ∧ jsTrim s.formData.description = "" then
    { state := s, networkCallMade := false,
      alert := some "Please enter a title or description first!" }
  else
    match outcome with
    | .httpOk aiTags =>
        { state := { s with
            formData := { s.formData with tags := mergeTags s.formData.tags aiTags },
            isGeneratingTags := false },
          networkCallMade := true,
          alert := some ("AI suggested tags: " ++ String.intercalate ", " aiTags) }
    | .httpError =>
        { state := { s with isGeneratingTags := false },
          networkCallMade := true,
          alert := some "Failed to generate tags from AI" }
    | .networkError =>
        { state := { s with isGeneratingTags := false },
          networkCallMade := true,
          alert := some "Error connecting to AI Tag Generator" }

/-- `FormData.append(key, value)`: multipart bodies keep every appended
entry, in order, duplicates included. -/
def fdAppend (fd : List (String × FormValue)) (k : String) (v : FormValue) :
    List (String × FormValue) :=
  fd ++ [(k, v)]

/-- The multipart body built at the top of `handleSubmit`, one `append` per
source line: `text`, `description`, one `tags` entry per tag (`forEach`),
`tags_input` (space-joined), and `files` only when a file is selected. -/
def buildPayload (formData : FormState) (file : Option String) :
    List (String × FormValue) :=
  let d1 := fdAppend [] "text" (.str formData.text)
  let d2 := fdAppend d1 "description" (.str formData.description)
  let d3 := formData.tags.foldl (fun acc tag => fdAppend acc "tags" (.str tag)) d2
  let d4 := fdAppend d3 "tags_input" (.str (String.intercalate " " formData.tags))
  match file with
  | some f => fdAppend d4 "files" (.file f)
  | none => d4

/-- JavaScript object update `obj[k] = v` on an object represented as an
assoc list in key-insertion order: overwrite in place if the key exists,
append otherwise. -/
def objSet (obj : List (String × FormValue)) (k : String) (v : FormValue) :
    List (String × FormValue) :=
  if obj.any (fun p => p.1 = k) then
    obj.map (fun p => if p.1 = k then (k, v) else p)
  else obj ++ [(k, v)]

/-- JavaScript `Object.fromEntries(entries)`: assign each entry in order;
for a repeated key the last value wins, at the key's first position. -/
def jsFromEntries (entries : List (String × FormValue)) :
    List (String × FormValue) :=
  entries.foldl (fun obj e => objSet obj e.1 e.2) []

/-- JavaScript property read `obj[k]` on the assoc-list representation. -/
def objGet (obj : List (String × FormValue)) (k : String) : Option FormValue :=
  (obj.find? (fun p => p.1 = k)).map (fun p => p.2)

/-- Outcome of the `fetch` to `/add-media` inside `handleSubmit`: HTTP
success with the `media` field of the JSON response, HTTP failure, or a
thrown network/parse exception. -/
inductive SubmitOutcome where
  | httpOk (media : String)
  | httpError
  | networkError
deriving DecidableEq, Repr

/-- The observable result of one `handleSubmit` invocation: the state left
behind, the argument passed to the `onSuccess` callback (when invoked), and
the alert shown. -/
structure SubmitRun where
  state : DialogState
  onSuccessArg : Option (List (String × FormValue))
  alert : Option String
deriving DecidableEq, Repr

/-- `handleClose()`: reset `formData` to the default shape for the current
date, clear the selected file, and signal the parent (`onClose`). -/
def handleClose (today : String) (s : DialogState) : DialogState :=
  { s with formData := initialFormData today, file := none }

/-- `handleSubmit(e)`: builds the multipart payload and posts it. On HTTP
success it calls `onSuccess` with `Object.fromEntries` of the payload,
overridden by `tags` (comma-space-joined) and `media` (from the response),
then resets via `handleClose`; on HTTP failure or exception it alerts and
leaves the draft untouched. The `finally` block clears `isUploading` in
every case. -/
def handleSubmit (today : String) (s : DialogState) (outcome : SubmitOutcome) :
    SubmitRun :=
  match outcome with
  | .httpOk media =>
      let formDataObj := jsFromEntries (buildPayload s.formData s.file)
      { state := { handleClose today s with isUploading := false },
        onSuccessArg := some (objSet
          (objSet formDataObj "tags"
            (.str (String.intercalate ", " s.formData.tags)))
          "media" (.str media)),
        alert := some "Memory uploaded successfully!" }
  | .httpError =>
      { state := { s with isUploading := false },
        onSuccessArg := none,
        alert := some "Failed to upload memory" }
  | .networkError =>
      { state := { s with isUploading := false },
        onSuccessArg := none,
        alert := some "Something went wrong while uploading" }

/-- A mail message as passed to the provider:
`resend.emails.send({from, to, subject, html})`. -/
structure MailMessage where
  toAddr : String
  fromAddr : String
  subject : String
  html : String
deriving DecidableEq, Repr

/-- Outcome of the provider call `resend.emails.send(...)`: the promise
resolves with a response (whose `data?.id` may be absent), or rejects with
an error message (provider rejection or network failure). -/
inductive ResendOutcome where
  | resolved (respId : Option String)
  | rejected (message : String)
deriving DecidableEq, Repr

/-- The provider call itself, as the body of the `try` block sees it: a
rejection surfaces as a thrown exception (`Except.error`). -/
def emailsSend (msg : MailMessage) (outcome : ResendOutcome) :
    Except String (Option String) :=
  match msg, outcome with
  | _, .resolved respId => .ok respId
  | _, .rejected m => .error m

/-- `sendMail(to, from, subject, html)`: awaits the provider call inside
`try/catch`. `Except.error` in the result type would mean an exception
propagating to the caller; the value carried by `Except.ok` is the console
log lines. On resolution it logs the message id (or `"OK"`), on rejection
the catch block logs the error message — and returns normally. -/
def sendMail (toAddr fromAddr subject html : String) (outcome : ResendOutcome) :
    Except String (List String) :=
  match emailsSend ⟨toAddr, fromAddr, subject, html⟩ outcome with
  | .ok respId => .ok ["Email sent: " ++ respId.getD "OK"]
  | .error e => .ok ["Email error: " ++ e]

/-- A populated draft: title, description, one tag, a selected file, both
busy flags set (they may hold any value when a handler fires). -/
def sampleDraft : DialogState :=
  { formData := { text := "Trip", description := "fun day", upload_date := "2026-01-01",
                  tags := ["Vacation"] },
    file := some "img.png", isUploading := true, isGeneratingTags := true }

/-- A fully empty draft: both title and description are the empty string. -/
def emptyDraft : DialogState :=
  { formData := { text := "", description := "", upload_date := "2026-01-01", tags := [] },
    file := none, isUploading := false, isGeneratingTags := false }

/-- A draft whose title is the one-character string of a single space:
non-empty as a string, but empty after trimming. -/
def whitespaceTitleDraft : DialogState :=
  { formData := { text := " ", description := "", upload_date := "2026-01-01", tags := [] },
    file := none, isUploading := false, isGeneratingTags := false }

/-- The spec's end-to-end example draft: title `"Beach Day"`, a selected
file, and an empty tag list. -/
def beachDraft : DialogState :=
  { formData := { text := "Beach Day", description := "", upload_date := "2026-10-11", tags := [] },
    file := some "beach.jpg", isUploading := false, isGeneratingTags := false }

/-- Membership in the deduplication with accumulator: an element is emitted
iff it occurs in the input and was not already seen. -/
theorem mem_jsSetDedupAux (x : String) (l : List String) : ∀ seen,
    (x ∈ jsSetDedupAux seen l ↔ x ∈ l ∧ x ∉ seen) := by
  induction l with
  | nil => intro seen; simp [jsSetDedupAux]
  | cons y ys ih =>
      intro seen
      by_cases hy : y ∈ seen
      · rw [jsSetDedupAux, if_pos (by simpa using hy), ih]
        simp only [List.mem_cons]
        constructor
        · rintro ⟨hx, hs⟩; exact ⟨Or.inr hx, hs⟩
        · rintro ⟨hx | hx, hs⟩
          · exact absurd (hx ▸ hy) hs
          · exact ⟨hx, hs⟩
      · rw [jsSetDedupAux, if_neg (by simpa using hy)]
        simp only [List.mem_cons, ih, List.mem_append, List.mem_singleton]
        constructor
        · rintro (rfl | ⟨hx, hs⟩)
          · exact ⟨Or.inl rfl, hy⟩
          · exact ⟨Or.inr hx, fun h => hs (Or.inl h)⟩
        · rintro ⟨rfl | hx, hs⟩
          · exact Or.inl rfl
          · rcases eq_or_ne x y with rfl | hne
            · exact Or.inl rfl
            · refine Or.inr ⟨hx, fun hmem => ?_⟩
              rcases hmem with h | h
              · exact hs h
              · exact hne (by simpa using h)

/-- The output of the accumulator deduplication never repeats an element. -/
theorem nodup_jsSetDedupAux (l : List String) : ∀ seen, (jsSetDedupAux seen l).Nodup := by
  induction l with
  | nil => intro seen; simp [jsSetDedupAux]
  | cons y ys ih =>
      intro seen
      by_cases hy : y ∈ seen
      · rw [jsSetDedupAux, if_pos (by simpa using hy)]; exact ih seen
      · rw [jsSetDedupAux, if_neg (by simpa using hy)]
        refine List.Nodup.cons ?_ (ih _)
        intro hmem
        rw [mem_jsSetDedupAux] at hmem
        exact hmem.2 (by simp)

/-- Membership in the merged tag list is membership in either input. -/
theorem mem_mergeTags (prev aiTags : List String) (t : String) :
    t ∈ mergeTags prev aiTags ↔ t ∈ prev ∨ t ∈ aiTags := by
  rw [mergeTags, jsSetDedup, mem_jsSetDedupAux]
  simp

/-- The merged tag list carries no duplicates, whatever the inputs. -/
theorem nodup_mergeTags (prev aiTags : List String) : (mergeTags prev aiTags).Nodup :=
  nodup_jsSetDedupAux _ _

/-- Toggling the same tag twice preserves the members of the tag list. -/
theorem mem_toggleList_toggleList (tag x : String) (l : List String) :
    x ∈ toggleList tag (toggleList tag l) ↔ x ∈ l := by
  by_cases h : tag ∈ l
  · have h1 : toggleList tag l = l.filter (fun t => t ≠ tag) := by simp [toggleList, h]
    have h2 : toggleList tag (l.filter (fun t => t ≠ tag))
        = l.filter (fun t => t ≠ tag) ++ [tag] := by simp [toggleList]
    rw [h1, h2]
    simp only [List.mem_append, List.mem_filter, List.mem_singleton, decide_eq_true_eq]
    rcases eq_or_ne x tag with rfl | hne
    · simp [h]
    · simp [hne]
  · have h1 : toggleList tag l = l ++ [tag] := by simp [toggleList, h]
    have h2 : toggleList tag (l ++ [tag]) = (l ++ [tag]).filter (fun t => t ≠ tag) := by
      simp [toggleList]
    rw [h1, h2]
    simp only [List.filter_append, List.mem_append, List.mem_filter, decide_eq_true_eq]
    rcases eq_or_ne x tag with rfl | hne
    · simp [h]
    · simp [hne]

/-- Toggling a tag maps a duplicate-free tag list to a duplicate-free one. -/
theorem nodup_toggleList (tag : String) (l : List String) (h : l.Nodup) :
    (toggleList tag l).Nodup := by
  by_cases hm : tag ∈ l
  · have h1 : toggleList tag l = l.filter (fun t => t ≠ tag) := by simp [toggleList, hm]
    rw [h1]; exact h.filter _
  · have h1 : toggleList tag l = l ++ [tag] := by simp [toggleList, hm]
    rw [h1, List.nodup_append]
    exact ⟨h, List.nodup_singleton tag, by
      intro a ha hb
      rw [List.mem_singleton] at hb
      exact hm (hb ▸ ha)⟩

/-- A `forEach`/`append` loop over the tags equals appending one `tags`
entry per tag, in order. -/
theorem foldl_append_tags (l : List String) (acc : List (String × FormValue)) :
    l.foldl (fun acc tag => acc ++ [("tags", FormValue.str tag)]) acc
      = acc ++ l.map (fun t => ("tags", FormValue.str t)) := by
  induction l generalizing acc with
  | nil => simp
  | cons t ts ih =>
      rw [List.foldl_cons, ih]
      simp

/-- C1: for every draft state, a `submit()` that ends in an HTTP failure or
a network exception leaves every draft field — `formData` (title,
description, upload date, tags) and the selected file — unchanged, and the
`isUploading` busy flag is false on completion. -/
theorem submit_failure_preserves_draft (today : String) (s : DialogState)
    (o : SubmitOutcome)
    (h : o = SubmitOutcome.httpError ∨ o = SubmitOutcome.networkError) :
    (handleSubmit today s o).state.formData = s.formData ∧
    (handleSubmit today s o).state.file = s.file ∧
    (handleSubmit today s o).state.isUploading = false := by
  rcases h with rfl | rfl <;> exact ⟨rfl, rfl, rfl⟩

/-- Witness for C1: a failing submit on a concrete populated draft keeps the
draft and clears the busy flag. -/
theorem submit_failure_preserves_draft_witness :
    (handleSubmit "2026-01-02" sampleDraft SubmitOutcome.httpError).state.formData
        = sampleDraft.formData ∧
    (handleSubmit "2026-01-02" sampleDraft SubmitOutcome.httpError).state.file
        = sampleDraft.file ∧
    (handleSubmit "2026-01-02" sampleDraft SubmitOutcome.httpError).state.isUploading
        = false :=
  submit_failure_preserves_draft "2026-01-02" sampleDraft SubmitOutcome.httpError (Or.inl rfl)

/-- C2: for every draft state, a `submit()` that succeeds resets the draft
to its default shape: empty title and description, empty tag list, no file,
and the upload date set to the current date. -/
theorem submit_success_resets_draft (today : String) (s : DialogState) (media : String) :
    (handleSubmit today s (SubmitOutcome.httpOk media)).state.formData.text = "" ∧
    (handleSubmit today s (SubmitOutcome.httpOk media)).state.formData.description = "" ∧
    (handleSubmit today s (SubmitOutcome.httpOk media)).state.formData.tags = [] ∧
    (handleSubmit today s (SubmitOutcome.httpOk media)).state.file = none ∧
    (handleSubmit today s (SubmitOutcome.httpOk media)).state.formData.upload_date = today :=
  ⟨rfl, rfl, rfl, rfl, rfl⟩

/-- C3: merging AI-suggested tags into the current tag list yields exactly
the set union of the two (every previously present tag is still present and
duplicates collapse); concretely, merging `["Birthday"]` with the suggested
`["Birthday", "Outdoor"]` gives exactly `["Birthday", "Outdoor"]`. -/
theorem generateTags_merge_union (prev aiTags : List String) :
    (∀ t, t ∈ mergeTags prev aiTags ↔ t ∈ prev ∨ t ∈ aiTags) ∧
    mergeTags ["Birthday"] ["Birthday", "Outdoor"] = ["Birthday", "Outdoor"] :=
  ⟨fun t => mem_mergeTags prev aiTags t, by decide⟩

/-- Counterexample to C4 as stated: a draft whose title is the non-empty
string of a single space still makes no network call, because the guard
tests the trimmed title and description. -/
theorem generateTags_whitespace_title_counterexample :
    whitespaceTitleDraft.formData.text ≠ "" ∧
    (handleGenerateTags whitespaceTitleDraft FetchTagsOutcome.httpError).networkCallMade
      = false :=
  ⟨by decide, rfl⟩

/-- C4 (amended): when both the trimmed title and the trimmed description
are empty (in particular when both are empty strings), `generateTags()`
issues no network call, surfaces the validation alert, and leaves the state
untouched; the network call is made exactly when at least one of
title/description is non-empty after trimming whitespace. -/
theorem generateTags_validation (s : DialogState) (o : FetchTagsOutcome) :
    ((handleGenerateTags s o).networkCallMade = true ↔
      ¬(jsTrim s.formData.text = "" ∧ jsTrim s.formData.description = "")) ∧
    (jsTrim s.formData.text = "" → jsTrim s.formData.description = "" →
      handleGenerateTags s o =
        { state := s, networkCallMade := false,
          alert := some "Please enter a title or description first!" }) := by
  by_cases h : jsTrim s.formData.text = "" ∧ jsTrim s.formData.description = ""
  · constructor
    · rw [handleGenerateTags.eq_def, if_pos h]
      simpa using h
    · intro h1 h2
      rw [handleGenerateTags.eq_def, if_pos h]
  · constructor
    · rw [handleGenerateTags.eq_def, if_neg h]
      cases o <;> simpa using h
    · intro h1 h2
      exact absurd ⟨h1, h2⟩ h

/-- Witness for C4 (amended): on the fully empty draft the call is aborted
with the validation alert and the state is unchanged. -/
theorem generateTags_validation_witness :
    ((handleGenerateTags emptyDraft FetchTagsOutcome.httpError).networkCallMade = true ↔
      ¬(jsTrim emptyDraft.formData.text = "" ∧ jsTrim emptyDraft.formData.description = "")) ∧
    handleGenerateTags emptyDraft FetchTagsOutcome.httpError =
      { state := emptyDraft, networkCallMade := false,
        alert := some "Please enter a title or description first!" } := by
  have h := generateTags_validation emptyDraft FetchTagsOutcome.httpError
  exact ⟨h.1, h.2 rfl rfl⟩

/-- C5: for every input and every provider outcome, `sendMail` returns
normally (never an `Except.error`, which would be an exception reaching the
caller); in particular a provider rejection is absorbed into a log line. -/
theorem sendMail_absorbs_failures (toAddr fromAddr subject html : String)
    (outcome : ResendOutcome) :
    (∃ logs, sendMail toAddr fromAddr subject html outcome = Except.ok logs) ∧
    (∀ m, sendMail toAddr fromAddr subject html (ResendOutcome.rejected m)
      = Except.ok ["Email error: " ++ m]) := by
  constructor
  · cases outcome <;> exact ⟨_, rfl⟩
  · intro m; rfl

/-- C6: toggling any tag twice in succession returns the draft's tag list
to its original state, as a set of strings (same members). -/
theorem toggle_twice_preserves_tag_set (s : DialogState) (tag x : String) :
    x ∈ (handleTagToggle tag (handleTagToggle tag s)).formData.tags ↔
      x ∈ s.formData.tags :=
  mem_toggleList_toggleList tag x s.formData.tags

/-- C7: the multipart payload built by `submit()` contains exactly the
title under `text`, the description under `description`, one repeated
`tags` entry per tag in order, the space-joined tag string under
`tags_input`, and the file under `files` precisely when one is selected. -/
theorem buildPayload_shape (formData : FormState) (file : Option String) :
    buildPayload formData file =
      [("text", FormValue.str formData.text),
       ("description", FormValue.str formData.description)]
      ++ formData.tags.map (fun t => ("tags", FormValue.str t))
      ++ [("tags_input", FormValue.str (String.intercalate " " formData.tags))]
      ++ (match file with
          | some f => [("files", FormValue.file f)]
          | none => []) := by
  cases file <;> simp [buildPayload, fdAppend, foldl_append_tags]

/-- C8: submitting the `"Beach Day"` draft (file selected, empty tag list)
against a success response with body `media = "img1.jpg"` invokes the
success callback with an object whose `tags` property is the empty string
and whose `media` property is `"img1.jpg"`. -/
theorem submit_beachDay_callback :
    ((handleSubmit "2026-10-11" beachDraft (SubmitOutcome.httpOk "img1.jpg")).onSuccessArg.map
        (fun p => (objGet p "tags", objGet p "media")))
      = some (some (FormValue.str ""), some (FormValue.str "img1.jpg")) := by
  decide

/-- C9: for every draft state that passes the validation guard, a
`generateTags()` that ends in an HTTP-level failure or a network exception
surfaces one of the two generic failure alerts, leaves every draft field
(including the tag list) and the selected file unchanged, and the
`isGeneratingTags` busy flag is false on completion. -/
theorem generateTags_failure_preserves_draft (s : DialogState) (o : FetchTagsOutcome)
    (hguard : ¬(jsTrim s.formData.text = "" ∧ jsTrim s.formData.description = ""))
    (ho : o = FetchTagsOutcome.httpError ∨ o = FetchTagsOutcome.networkError) :
    (handleGenerateTags s o).state.formData = s.formData ∧
    (handleGenerateTags s o).state.file = s.file ∧
    (handleGenerateTags s o).state.isGeneratingTags = false ∧
    ((handleGenerateTags s o).alert = some "Failed to generate tags from AI" ∨
     (handleGenerateTags s o).alert = some "Error connecting to AI Tag Generator") := by
  rcases ho with rfl | rfl
  · rw [handleGenerateTags.eq_def, if_neg hguard]
    exact ⟨rfl, rfl, rfl, Or.inl rfl⟩
  · rw [handleGenerateTags.eq_def, if_neg hguard]
    exact ⟨rfl, rfl, rfl, Or.inr rfl⟩

/-- Witness for C9: an HTTP failure on a concrete populated draft keeps the
draft, clears the busy flag, and alerts. -/
theorem generateTags_failure_preserves_draft_witness :
    (handleGenerateTags sampleDraft FetchTagsOutcome.httpError).state.formData
        = sampleDraft.formData ∧
    (handleGenerateTags sampleDraft FetchTagsOutcome.httpError).state.file
        = sampleDraft.file ∧
    (handleGenerateTags sampleDraft FetchTagsOutcome.httpError).state.isGeneratingTags
        = false ∧
    ((handleGenerateTags sampleDraft FetchTagsOutcome.httpError).alert
        = some "Failed to generate tags from AI" ∨
     (handleGenerateTags sampleDraft FetchTagsOutcome.httpError).alert
        = some "Error connecting to AI Tag Generator") :=
  generateTags_failure_preserves_draft sampleDraft FetchTagsOutcome.httpError
    (by decide) (Or.inl rfl)

/-- C10: the draft's tag list never contains duplicates — the initial tag
list is duplicate-free, and every operation that produces a tag list
(toggling a tag, the AI-tag merge, and the reset in close and in
submit-success) maps a duplicate-free list to a duplicate-free list (the
merge and the resets yield duplicate-free lists unconditionally). -/
theorem tags_nodup_invariant :
    (∀ today, (initialFormData today).tags.Nodup) ∧
    (∀ s tag, s.formData.tags.Nodup → (handleTagToggle tag s).formData.tags.Nodup) ∧
    (∀ prev aiTags, (mergeTags prev aiTags).Nodup) ∧
    (∀ today s, (handleClose today s).formData.tags.Nodup) ∧
    (∀ today s media,
      (handleSubmit today s (SubmitOutcome.httpOk media)).state.formData.tags.Nodup) :=
  ⟨fun _ => List.nodup_nil, fun s tag h => nodup_toggleList tag s.formData.tags h,
   fun prev aiTags => nodup_mergeTags prev aiTags,
   fun _ _ => List.nodup_nil, fun _ _ _ => List.nodup_nil⟩

/-- Witness for C10: toggling a tag on a concrete duplicate-free draft
yields a duplicate-free tag list. -/
theorem tags_nodup_invariant_witness :
    (handleTagToggle "Birthday" sampleDraft).formData.tags.Nodup :=
  tags_nodup_invariant.2.1 sampleDraft "Birthday" (by decide)

end LegacyTrunk
